import Mathlib

/-!
Shallow embedding of the configuration-driven resource-graph builder of the
app-cdk repository (stacks for VPC, security groups, ALB, RDS, ECR, S3, plus
the SSM registry helpers), together with theorems settling the spec claims.

Python dictionaries read with `cfg.get(key, default)` become `Option` fields
read with `Option.getD`; f-strings become `String.append` chains; raised
exceptions become `Except` errors; the per-stack mutable caches
(`self.vpcs`, `self.security_groups`, ...) become explicit state records
threaded through the builder functions, extended with a log of the SSM
lookups and imports performed so that memoization claims can be stated.
-/

namespace AppCdk

/-- Errors raised by the embedded Python code.  `valueError` and
`attributeError` and `keyError` mirror the exceptions the source actually
raises; `unsupportedEnumValue` is the structured error the SPEC describes
(field, offending value, allowed set) and exists in the type only so that
claims about it can be stated — no source path produces it. -/
inductive PyError where
  | valueError (msg : String)
  | attributeError (attr : String)
  | keyError (key : String)
  | typeError (msg : String)
  | fileNotFoundError (msg : String)
  | unsupportedEnumValue (field : String) (value : String) (allowed : List String)
  deriving DecidableEq, Repr

/-- Python's `str.upper()` on the configuration strings (ASCII), written
character-wise so it evaluates on concrete inputs. -/
def pyUpper (s : String) : String := ⟨s.data.map Char.toUpper⟩

/-- Python's `str.lower()` on the configuration strings (ASCII). -/
def pyLower (s : String) : String := ⟨s.data.map Char.toLower⟩

instance {ε α : Type} [DecidableEq ε] [DecidableEq α] :
    DecidableEq (Except ε α) := fun x y =>
  match x, y with
  | .ok a, .ok b => if h : a = b then .isTrue (by rw [h]) else .isFalse (by simp [h])
  | .error e, .error f => if h : e = f then .isTrue (by rw [h]) else .isFalse (by simp [h])
  | .ok _, .error _ => .isFalse (by simp)
  | .error _, .ok _ => .isFalse (by simp)

/-- A deferred SSM value: `StringParameter.value_for_string_parameter` returns
a lazy token resolved only at deployment-apply time, so at declare time it is
fully determined by the parameter name it will look up. -/
structure DeferredValue where
  key : String
  deriving DecidableEq, Repr

/-- utils/ssm.py, `get_ssm_parameter`: a registry read declaration. -/
def get_ssm_parameter (name : String) : DeferredValue := ⟨name⟩

/-- utils/ssm.py, `get_ssm_subnet_ids`: `[value_for_string_parameter(scope,
f"{base_path}/{i}") for i in range(count)]`. -/
def get_ssm_subnet_ids (base_path : String) (count : Nat) : List DeferredValue :=
  (List.range count).map (fun i => get_ssm_parameter (base_path ++ "/" ++ toString i))

/-! ### Registry key paths, one definition per f-string occurrence in the source -/

/-- The deterministic registry key path of the spec:
`/{project}/{environment}/{category}/{name}`. -/
def registry_key (project env category name : String) : String :=
  "/" ++ project ++ "/" ++ env ++ "/" ++ category ++ "/" ++ name

/-- stacks/network/vpc.py line 92: the key under which a built VPC's id is
published: `f"/{self.prj_name}/{self.env_name}/vpc/{vpc_name_in_config}"`. -/
def vpcPublishKey (prj env name : String) : String :=
  "/" ++ prj ++ "/" ++ env ++ "/vpc/" ++ name

/-- stacks/network/security_group.py line 49 (`_create_base_security_group`):
the key a security-group stack reads to import a VPC by name. -/
def sgStackVpcImportKey (prj env vpcKey : String) : String :=
  "/" ++ prj ++ "/" ++ env ++ "/vpc/" ++ vpcKey

/-- stacks/network/security_group.py line 83: the key under which a built
security group's id is published. -/
def sgPublishKey (prj env name : String) : String :=
  "/" ++ prj ++ "/" ++ env ++ "/sg/" ++ name

/-- stacks/network/security_group.py, `_resolve_peer`: the key read to import
a source security group referenced by an ingress/egress rule. -/
def sgPeerImportKey (prj env sourceSgName : String) : String :=
  "/" ++ prj ++ "/" ++ env ++ "/sg/" ++ sourceSgName

/-- stacks/network/alb.py, `_get_vpc`: the key an ALB stack reads to import a
VPC by name. -/
def albStackVpcImportKey (prj env vpcKey : String) : String :=
  "/" ++ prj ++ "/" ++ env ++ "/vpc/" ++ vpcKey

/-- stacks/network/alb.py, `_get_security_group`: the key an ALB stack reads
to import a security group by name. -/
def albStackSgImportKey (prj env sgName : String) : String :=
  "/" ++ prj ++ "/" ++ env ++ "/sg/" ++ sgName

/-- stacks/storage/rds.py, `_get_vpc`: the key an RDS stack reads to import a
VPC by name. -/
def rdsStackVpcImportKey (prj env vpcKey : String) : String :=
  "/" ++ prj ++ "/" ++ env ++ "/vpc/" ++ vpcKey

/-- stacks/storage/rds.py, `_get_security_group`: the key an RDS stack reads
to import a security group by name. -/
def rdsStackSgImportKey (prj env sgName : String) : String :=
  "/" ++ prj ++ "/" ++ env ++ "/sg/" ++ sgName

/-! ### Configuration loader (utils/yaml_loader.py) -/

/-- Loader-level errors: `configNotFound` embeds the `FileNotFoundError`
raised when the path does not exist, `configParseError` the `ValueError`
wrapping the underlying `yaml.YAMLError`. -/
inductive LoadError where
  | configNotFound (path : String)
  | configParseError (wrapped : String)
  deriving DecidableEq, Repr

/-- utils/yaml_loader.py `load_yaml`, abstracted over the filesystem (`fs`,
path to content when the file exists) and the YAML parser (`parse`), both of
which are outside the subsystem per the spec.  Raises `FileNotFoundError`
when the path does not exist, wraps a parse failure, and otherwise returns
the parsed tree verbatim. -/
def load_yaml {α : Type} (fs : String → Option String)
    (parse : String → Except String α) (file_path : String) : Except LoadError α :=
  match fs file_path with
  | none => .error (.configNotFound file_path)
  | some content =>
    match parse content with
    | .error e => .error (.configParseError e)
    | .ok tree => .ok tree

/-! ### VPC stack (stacks/network/vpc.py) -/

/-- One entry of a VPC spec's `subnets` list. -/
structure SubnetSpec where
  name : String
  type : String
  cidr_mask : Option Nat := none
  deriving DecidableEq, Repr

/-- One entry of the `vpcs` list of the configuration document, with the
fields `_create_single_vpc` reads (optional fields are `.get` calls). -/
structure VpcSpec where
  name : String
  cidr : String
  max_azs : Option Nat := none
  nat_gateways : Option Nat := none
  enable_dns_hostnames : Option Bool := none
  enable_dns_support : Option Bool := none
  nat_gateway_provider_type : Option String := none
  subnets : List SubnetSpec := []
  deriving DecidableEq, Repr

/-- The deterministic identifiers a stack emits for one resource: the CDK
logical id, the `*_name` resource attribute, and the registry key its id is
published under. -/
structure DeclaredIdentifiers where
  logicalId : String
  resourceName : String
  registryKey : String
  deriving DecidableEq, Repr

/-- stacks/network/vpc.py lines 46–48 and 92: the logical id
`f"{prj}-{env}-vpc-{name}"`, the resource name `f"{prj}-{env}-{name}-vpc"`,
and the publish key, all derived from project, environment and spec name
alone. -/
def vpcDeclaredIdentifiers (prj env : String) (spec : VpcSpec) : DeclaredIdentifiers :=
  { logicalId := prj ++ "-" ++ env ++ "-vpc-" ++ spec.name
    resourceName := prj ++ "-" ++ env ++ "-" ++ spec.name ++ "-vpc"
    registryKey := vpcPublishKey prj env spec.name }

/-- The VPC stack's configuration document (`env`, `project_name`, `vpcs`). -/
structure VpcConfig where
  project_name : String
  env : String
  vpcs : List VpcSpec
  deriving DecidableEq, Repr

/-- `_create_vpcs`: the identifiers emitted for the whole `vpcs` list, in
document order. -/
def vpcStackDeclaredIdentifiers (cfg : VpcConfig) : List DeclaredIdentifiers :=
  cfg.vpcs.map (vpcDeclaredIdentifiers cfg.project_name cfg.env)

/-! ### ALB stack (stacks/network/alb.py): specs and declared identifiers -/

/-- One entry of an ALB spec's `target_groups` list, with the fields
`_create_target_groups_and_rules` reads for the target-group declaration. -/
structure TgConf where
  name : String
  port : Int
  protocol : Option String := none
  target_type : Option String := none
  host_headers : Option (List String) := none
  path_patterns : Option (List String) := none
  deriving DecidableEq, Repr

/-- One entry of the `albs` list of the configuration document. -/
structure AlbSpec where
  name : String
  vpc : String
  sg : String
  domain_name : String
  availability_zones : List String := []
  internet_facing : Option Bool := none
  target_groups : List TgConf := []
  deriving DecidableEq, Repr

/-- stacks/network/alb.py, `_create_single_alb`: the load balancer ARN is
published under `f"/{prj}/{env}/loadbalancer/{alb_name_in_config}"`. -/
def albPublishKey (prj env name : String) : String :=
  "/" ++ prj ++ "/" ++ env ++ "/loadbalancer/" ++ name

/-- stacks/network/alb.py lines 56–58 and the publish call: logical id and
resource name `f"{prj}-{env}-{name}"`, publish key as above — again derived
from project, environment and spec name alone. -/
def albDeclaredIdentifiers (prj env : String) (spec : AlbSpec) : DeclaredIdentifiers :=
  { logicalId := prj ++ "-" ++ env ++ "-" ++ spec.name
    resourceName := prj ++ "-" ++ env ++ "-" ++ spec.name
    registryKey := albPublishKey prj env spec.name }

/-- The ALB stack's configuration document. -/
structure AlbConfig where
  project_name : String
  env : String
  albs : List AlbSpec
  deriving DecidableEq, Repr

/-- `_create_albs`: the identifiers emitted for the whole `albs` list, in
document order. -/
def albStackDeclaredIdentifiers (cfg : AlbConfig) : List DeclaredIdentifiers :=
  cfg.albs.map (albDeclaredIdentifiers cfg.project_name cfg.env)

/-! ### Enum translation via dynamic attribute lookup
(`getattr(Enum, s.upper())`), as used by the ALB and ECR emitters -/

/-- The engine's application-layer protocol enumeration
(`elb.ApplicationProtocol`). -/
inductive ApplicationProtocol where
  | HTTP
  | HTTPS
  deriving DecidableEq, Repr

/-- `getattr(elb.ApplicationProtocol, attr)`: succeeds exactly on the member
names, otherwise raises `AttributeError` carrying only the missing attribute
name — no field name and no allowed set. -/
def getattrApplicationProtocol (attr : String) : Except PyError ApplicationProtocol :=
  if attr = "HTTP" then .ok .HTTP
  else if attr = "HTTPS" then .ok .HTTPS
  else .error (.attributeError attr)

/-- The engine's target-type enumeration (`elb.TargetType`). -/
inductive TargetType where
  | INSTANCE
  | IP
  | LAMBDA
  | ALB
  deriving DecidableEq, Repr

/-- `getattr(elb.TargetType, attr)`. -/
def getattrTargetType (attr : String) : Except PyError TargetType :=
  if attr = "INSTANCE" then .ok .INSTANCE
  else if attr = "IP" then .ok .IP
  else if attr = "LAMBDA" then .ok .LAMBDA
  else if attr = "ALB" then .ok .ALB
  else .error (.attributeError attr)

/-- stacks/network/alb.py line 199 (`_create_target_groups_and_rules`):
`protocol = getattr(elb.ApplicationProtocol, tg_rule_conf.get("protocol",
"HTTP").upper())`, with no surrounding try/except. -/
def resolveTgProtocol (protocol : Option String) : Except PyError ApplicationProtocol :=
  getattrApplicationProtocol (pyUpper (protocol.getD "HTTP"))

/-- stacks/network/alb.py line 200: `target_type = getattr(elb.TargetType,
tg_rule_conf.get("target_type", "INSTANCE").upper())`. -/
def resolveTgTargetType (target_type : Option String) : Except PyError TargetType :=
  getattrTargetType (pyUpper (target_type.getD "INSTANCE"))

/-! ### Security-group stack (stacks/network/security_group.py): rules -/

/-- A security-group object held in a stack's `self.security_groups` cache:
either built in this stack or imported from a registry id. -/
inductive SgHandle where
  | built (logicalId : String)
  | imported (constructId : String) (sgId : DeferredValue)
  deriving DecidableEq, Repr

/-- An `ec2.IPeer` as produced by `_resolve_peer`. -/
inductive Peer where
  | ipv4 (cidr : String)
  | securityGroup (sg : SgHandle)
  | prefixList (id : String)
  | vpcPeer (id : String)
  | anyIpv4
  | anyIpv6
  deriving DecidableEq, Repr

/-- The YAML value of a rule's `port` entry: a plain integer, or a mapping
with `type`/`code` entries (the shape the icmp branch reads with
`port.get("type")`). -/
inductive PortConf where
  | int (n : Int)
  | mapping (type code : Option Int)
  deriving DecidableEq, Repr

/-- An `ec2.Port` as produced by `_resolve_port_range`. -/
inductive Port where
  | allTraffic
  | tcp (p : Int)
  | udp (p : Int)
  | icmp (type code : Option Int)
  | tcpRange (fromPort toPort : Int)
  | udpRange (fromPort toPort : Int)
  deriving DecidableEq, Repr

/-- One ingress/egress rule spec, with the keys `_resolve_peer` and
`_resolve_port_range` test with `"k" in rule` / `rule.get(k)`. -/
structure RuleConf where
  cidr : Option String := none
  source_sg : Option String := none
  prefix_list_id : Option String := none
  connection_peer_id : Option String := none
  all_ipv4 : Option Bool := none
  all_ipv6 : Option Bool := none
  protocol : Option String := none
  port : Option PortConf := none
  from_port : Option Int := none
  to_port : Option Int := none
  description : Option String := none
  deriving DecidableEq, Repr

/-- One entry of the `security_groups` list of the configuration document. -/
structure SgConf where
  name : String
  vpc : String
  description : Option String := none
  allow_all_outbound : Option Bool := none
  availability_zones : Option (List String) := none
  ingress : List RuleConf := []
  egress : List RuleConf := []
  deriving DecidableEq, Repr

/-- The mutable state of the security-group stack that the rule-resolution
code touches: the `self.security_groups` cache plus a log of the SSM lookups
declared. -/
structure SgStackState where
  security_groups : List (String × SgHandle)
  lookups : List String
  deriving DecidableEq, Repr

/-- The `ValueError` message of `_resolve_peer`'s final `else` branch. -/
def peerAlternativesMsg : String :=
  "Ingress/Egress rule must include 'cidr', 'source_sg', 'prefix_list_id', " ++
  "'connection_peer_id', 'all_ipv4', or 'all_ipv6'."

/-- security_group.py, `_resolve_peer`: the if/elif chain over the rule's
peer-identifying keys; a `source_sg` miss in the cache imports the group
from its registry key and caches it; with no peer key at all it raises
`ValueError` naming the alternatives. -/
def resolve_peer (prj env : String) (rule : RuleConf) (st : SgStackState) :
    Except PyError Peer × SgStackState :=
  match rule.cidr with
  | some c => (.ok (.ipv4 c), st)
  | none =>
  match rule.source_sg with
  | some s =>
    match st.security_groups.lookup s with
    | some sg => (.ok (.securityGroup sg), st)
    | none =>
      let key := sgPeerImportKey prj env s
      let imported := SgHandle.imported ("ImportedSg-" ++ s) (get_ssm_parameter key)
      (.ok (.securityGroup imported),
        { st with security_groups := (s, imported) :: st.security_groups
                  lookups := st.lookups ++ [key] })
  | none =>
  match rule.prefix_list_id with
  | some p => (.ok (.prefixList p), st)
  | none =>
  match rule.connection_peer_id with
  | some c => (.ok (.vpcPeer c), st)
  | none =>
  if rule.all_ipv4.getD false then (.ok .anyIpv4, st)
  else if rule.all_ipv6.getD false then (.ok .anyIpv6, st)
  else (.error (.valueError peerAlternativesMsg), st)

/-- security_group.py, `_resolve_port_range`: protocol defaults to `tcp`
(lower-cased); a single `port` of `-1` or protocol `all` is all-traffic;
`tcp`/`udp` need an integer port; `icmp` reads `type`/`code` off a mapping
(an integer port would raise `AttributeError` on `.get`); otherwise a
`from_port`/`to_port` range, or `protocol: all_traffic`, or `ValueError`. -/
def resolve_port_range (rule : RuleConf) : Except PyError Port :=
  let protocol := pyLower (rule.protocol.getD "tcp")
  match rule.port with
  | some p =>
    if (match p with | .int n => n = -1 | .mapping _ _ => False : Bool) ∨
        protocol = "all" then .ok .allTraffic
    else if protocol = "tcp" then
      match p with
      | .int n => .ok (.tcp n)
      | .mapping _ _ => .error (.typeError "ec2.Port.tcp expects an integer port")
    else if protocol = "udp" then
      match p with
      | .int n => .ok (.udp n)
      | .mapping _ _ => .error (.typeError "ec2.Port.udp expects an integer port")
    else if protocol = "icmp" then
      match p with
      | .mapping t c => .ok (.icmp t c)
      | .int _ => .error (.attributeError "get")
    else .error (.valueError ("Unsupported protocol '" ++ protocol ++ "' for single port in rule"))
  | none =>
  match rule.from_port, rule.to_port with
  | some f, some t =>
    if protocol = "tcp" then .ok (.tcpRange f t)
    else if protocol = "udp" then .ok (.udpRange f t)
    else .error (.valueError ("Unsupported protocol '" ++ protocol ++ "' for port range in rule"))
  | _, _ =>
    if protocol = "all_traffic" then .ok .allTraffic
    else .error (.valueError
      "Ingress/Egress rule must specify either 'port' or 'from_port'/'to_port', or 'protocol: all_traffic'.")

/-- One rule actually added to a security group (`add_ingress_rule` /
`add_egress_rule` arguments). -/
structure AppliedRule where
  peer : Peer
  port : Port
  description : String
  deriving DecidableEq, Repr

/-- The `for rule_conf in ...` loops of `_add_rules_to_security_group`: each
rule's peer then port is resolved inside `try`; any raised error is printed
and the loop `continue`s, so failed rules are skipped (collected here in a
log) while resolved ones are applied in order. -/
def addRulesLoop (prj env defaultDesc : String) (rules : List RuleConf)
    (st : SgStackState) : (List AppliedRule × List PyError) × SgStackState :=
  match rules with
  | [] => (([], []), st)
  | r :: rest =>
    match resolve_peer prj env r st with
    | (.error e, st1) =>
      let w := addRulesLoop prj env defaultDesc rest st1
      ((w.1.1, e :: w.1.2), w.2)
    | (.ok peer, st1) =>
      match resolve_port_range r with
      | .error e =>
        let w := addRulesLoop prj env defaultDesc rest st1
        ((w.1.1, e :: w.1.2), w.2)
      | .ok port =>
        let w := addRulesLoop prj env defaultDesc rest st1
        ((⟨peer, port, r.description.getD defaultDesc⟩ :: w.1.1, w.1.2), w.2)

/-- security_group.py, `_add_rules_to_security_group`: looks the group up in
`self.security_groups` (a miss there is an uncaught `KeyError`), applies the
ingress rules, and applies the egress rules only when
`sg_conf.get("allow_all_outbound", True)` is falsy.  Returns the applied
ingress rules, the applied egress rules and the log of caught rule errors. -/
def add_rules_to_security_group (prj env : String) (conf : SgConf) (st : SgStackState) :
    Except PyError ((List AppliedRule × List AppliedRule × List PyError) × SgStackState) :=
  match st.security_groups.lookup conf.name with
  | none => .error (.keyError conf.name)
  | some _ =>
    let w := addRulesLoop prj env "Ingress rule from config" conf.ingress st
    if conf.allow_all_outbound.getD true then
      .ok ((w.1.1, [], w.1.2), w.2)
    else
      let w2 := addRulesLoop prj env "Egress rule from config" conf.egress w.2
      .ok ((w.1.1, w2.1.1, w.1.2 ++ w2.1.2), w2.2)

/-! ### Memoized cross-stack resolution (alb.py `_get_vpc`,
rds.py `_get_security_group`) -/

/-- A VPC imported with `ec2.Vpc.from_vpc_attributes`. -/
structure ImportedVpc where
  constructId : String
  vpcId : DeferredValue
  availabilityZones : List String
  publicSubnetIds : List DeferredValue
  deriving DecidableEq, Repr

/-- The ALB stack's caches (`self.vpcs`, `self.security_groups`) together
with logs of the SSM lookups declared and the import constructs created, so
that single-resolution properties can be stated. -/
structure AlbStackState where
  vpcs : List (String × ImportedVpc)
  security_groups : List (String × SgHandle)
  lookups : List String
  imports : List String
  deriving DecidableEq, Repr

/-- stacks/network/alb.py, `_get_vpc`: on a cache miss the VPC id and the
public subnet ids (one per requested availability zone) are read from the
registry, the VPC is imported under `f"{vpc_key}VpcImport"` and cached;
a cache hit returns the cached import untouched. -/
def alb_get_vpc (prj env vpcKey : String) (azs : List String) (st : AlbStackState) :
    ImportedVpc × AlbStackState :=
  match st.vpcs.lookup vpcKey with
  | some v => (v, st)
  | none =>
    let vpcIdParamName := albStackVpcImportKey prj env vpcKey
    let publicSubnetPath := "/" ++ prj ++ "/" ++ env ++ "/" ++ vpcKey ++ "/subnet/public"
    let subnetIds := get_ssm_subnet_ids publicSubnetPath azs.length
    let v : ImportedVpc :=
      ⟨vpcKey ++ "VpcImport", get_ssm_parameter vpcIdParamName, azs, subnetIds⟩
    (v, { st with
            vpcs := (vpcKey, v) :: st.vpcs
            lookups := st.lookups ++ vpcIdParamName :: subnetIds.map DeferredValue.key
            imports := st.imports ++ [vpcKey ++ "VpcImport"] })

/-- The RDS stack's caches and logs, as for the ALB stack. -/
structure RdsStackState where
  vpcs : List (String × ImportedVpc)
  security_groups : List (String × SgHandle)
  lookups : List String
  imports : List String
  deriving DecidableEq, Repr

/-- stacks/storage/rds.py, `_get_security_group`: on a cache miss the group
id is read from the registry and the group imported under
`f"{sg_name}SGImport"` and cached; a cache hit returns the cached import. -/
def rds_get_security_group (prj env sgName : String) (st : RdsStackState) :
    SgHandle × RdsStackState :=
  match st.security_groups.lookup sgName with
  | some sg => (sg, st)
  | none =>
    let key := rdsStackSgImportKey prj env sgName
    let sg := SgHandle.imported (sgName ++ "SGImport") (get_ssm_parameter key)
    (sg, { st with
             security_groups := (sgName, sg) :: st.security_groups
             lookups := st.lookups ++ [key]
             imports := st.imports ++ [sgName ++ "SGImport"] })

/-- Fresh ALB-stack state: empty caches and logs. -/
def emptyAlbState : AlbStackState := ⟨[], [], [], []⟩

/-- Fresh RDS-stack state: empty caches and logs. -/
def emptyRdsState : RdsStackState := ⟨[], [], [], []⟩

/-! ### Emitted declaration props with documented defaults
(security_group.py, ecr.py, s3.py) -/

/-- The arguments `_create_base_security_group` passes to
`ec2.SecurityGroup` that come from the spec (lines 44–47 and 66–73). -/
structure SecurityGroupProps where
  securityGroupName : String
  description : String
  allowAllOutbound : Bool
  deriving DecidableEq, Repr

/-- security_group.py lines 44–47 and 63–73: the resource name, the
description defaulting to `f"Security group for {name}"`, and
`allow_all_outbound = sg_conf.get("allow_all_outbound", True)`. -/
def security_group_props (prj env : String) (conf : SgConf) : SecurityGroupProps :=
  { securityGroupName := prj ++ "-" ++ env ++ "-" ++ conf.name ++ "-sg"
    description := conf.description.getD ("Security group for " ++ conf.name)
    allowAllOutbound := conf.allow_all_outbound.getD true }

/-- The engine's `ecr.TagMutability` enumeration. -/
inductive TagMutability where
  | MUTABLE
  | IMMUTABLE
  deriving DecidableEq, Repr

/-- `getattr(ecr.TagMutability, attr)`. -/
def getattrTagMutability (attr : String) : Except PyError TagMutability :=
  if attr = "MUTABLE" then .ok .MUTABLE
  else if attr = "IMMUTABLE" then .ok .IMMUTABLE
  else .error (.attributeError attr)

/-- The engine's `ecr.RepositoryEncryption` enumeration. -/
inductive RepositoryEncryption where
  | AES_256
  | KMS
  | KMS_DSSE
  deriving DecidableEq, Repr

/-- `getattr(ecr.RepositoryEncryption, attr)`. -/
def getattrRepositoryEncryption (attr : String) : Except PyError RepositoryEncryption :=
  if attr = "AES_256" then .ok .AES_256
  else if attr = "KMS" then .ok .KMS
  else if attr = "KMS_DSSE" then .ok .KMS_DSSE
  else .error (.attributeError attr)

/-- The engine's `RemovalPolicy` enumeration. -/
inductive RemovalPolicy where
  | DESTROY
  | RETAIN
  | SNAPSHOT
  | RETAIN_ON_UPDATE_OR_DELETE
  deriving DecidableEq, Repr

/-- `getattr(RemovalPolicy, attr)`. -/
def getattrRemovalPolicy (attr : String) : Except PyError RemovalPolicy :=
  if attr = "DESTROY" then .ok .DESTROY
  else if attr = "RETAIN" then .ok .RETAIN
  else if attr = "SNAPSHOT" then .ok .SNAPSHOT
  else if attr = "RETAIN_ON_UPDATE_OR_DELETE" then .ok .RETAIN_ON_UPDATE_OR_DELETE
  else .error (.attributeError attr)

/-- One entry of the `repositories` list of the configuration document, with
the fields `_create_single_repository` reads. -/
structure RepoConf where
  name : String
  repository_name : Option String := none
  image_scan_on_push : Option Bool := none
  image_tag_mutability : Option String := none
  encryption : Option String := none
  kms_key_arn : Option String := none
  removal_policy : Option String := none
  auto_delete_images : Option Bool := none
  store_ssm : Option Bool := none
  deriving DecidableEq, Repr

/-- The `repo_props` dictionary `_create_single_repository` passes to
`ecr.Repository`. -/
structure RepoProps where
  repositoryName : String
  imageScanOnPush : Bool
  imageTagMutability : TagMutability
  encryption : RepositoryEncryption
  removalPolicy : RemovalPolicy
  emptyOnDelete : Bool
  deriving DecidableEq, Repr

/-- stacks/storage/ecr.py lines 37–73, `_create_single_repository`: the
repository name defaults to `f"{prj}-{env}-{name}"`, scan-on-push to `True`,
tag mutability to `MUTABLE`, encryption to `AES_256`, removal policy to
`"RETAIN"`, auto-delete to `False`; KMS encryption without a `kms_key_arn`
raises `ValueError`; enum strings go through `getattr` on the uppercased
value. -/
def create_single_repository_props (prj env : String) (conf : RepoConf) :
    Except PyError RepoProps :=
  let repositoryName := conf.repository_name.getD (prj ++ "-" ++ env ++ "-" ++ conf.name)
  let imageScanOnPush := conf.image_scan_on_push.getD true
  match getattrTagMutability (pyUpper (conf.image_tag_mutability.getD "MUTABLE")) with
  | .error e => .error e
  | .ok tagMut =>
  match getattrRepositoryEncryption (pyUpper (conf.encryption.getD "AES_256")) with
  | .error e => .error e
  | .ok enc =>
  match getattrRemovalPolicy (pyUpper (conf.removal_policy.getD "RETAIN")) with
  | .error e => .error e
  | .ok rp =>
  if enc = .KMS ∧ conf.kms_key_arn.getD "" = "" then
    .error (.valueError ("ECR Repository '" ++ conf.name ++
      "' configured with KMS encryption but no 'kms_key_arn' provided."))
  else
    .ok ⟨repositoryName, imageScanOnPush, tagMut, enc, rp, conf.auto_delete_images.getD false⟩

/-- The four flags of `s3.BlockPublicAccess`. -/
structure BlockPublicAccess where
  block_public_acls : Bool
  block_public_policy : Bool
  ignore_public_acls : Bool
  restrict_public_buckets : Bool
  deriving DecidableEq, Repr

/-- utils/s3_public.py, `get_block_public_access`: all four flags on when the
argument is truthy, all four off otherwise. -/
def get_block_public_access (enabled : Bool) : BlockPublicAccess :=
  if enabled then ⟨true, true, true, true⟩ else ⟨false, false, false, false⟩

/-- Python truthiness of the `public_access_block` mapping the bucket emitter
passes where a bool is expected: a dict is truthy iff non-empty. -/
def pyDictTruthy (m : List (String × Bool)) : Bool := !m.isEmpty

/-- One entry of the `buckets` list of the configuration document, with the
fields `_create_base_bucket` reads. -/
structure BucketConf where
  name : String
  access_control : Option String := none
  encryption : Option String := none
  public_access_block : Option (List (String × Bool)) := none
  removal_policy : Option String := none
  auto_delete_objects : Option Bool := none
  versioned : Option Bool := none
  deriving DecidableEq, Repr

/-- stacks/storage/s3.py lines 50–51: `public_access_conf =
bucket_cfg.get("public_access_block", {})` followed by
`get_block_public_access(public_access_conf)` — the dict itself is passed
where the bool parameter is expected, so only its truthiness matters. -/
def bucket_block_public_access (conf : BucketConf) : BlockPublicAccess :=
  get_block_public_access (pyDictTruthy (conf.public_access_block.getD []))

end AppCdk

namespace AppCdk

/-- The literal `"/vpc/"` of the source's f-strings splits around the
category segment. -/
theorem slash_vpc_slash_eq : ("/vpc/" : String) = "/" ++ "vpc" ++ "/" := by decide

/-- The literal `"/sg/"` of the source's f-strings splits around the category
segment. -/
theorem slash_sg_slash_eq : ("/sg/" : String) = "/" ++ "sg" ++ "/" := by decide

/-- C1: every publish site and every external reader computes the same
deterministic registry key `/{project}/{env}/{category}/{name}`: the VPC
stack publishes under category `vpc`, the security-group stack under `sg`,
and the security-group, ALB and RDS stacks all read VPCs resp. security
groups back under the identical strings; on project `acme`, environment
`dev`, category `vpc`, name `main` the key is `/acme/dev/vpc/main`. -/
theorem registry_keys_agree :
    (∀ p e n, vpcPublishKey p e n = registry_key p e "vpc" n) ∧
    (∀ p e n, sgPublishKey p e n = registry_key p e "sg" n) ∧
    (∀ p e n, sgStackVpcImportKey p e n = vpcPublishKey p e n) ∧
    (∀ p e n, albStackVpcImportKey p e n = vpcPublishKey p e n) ∧
    (∀ p e n, rdsStackVpcImportKey p e n = vpcPublishKey p e n) ∧
    (∀ p e n, albStackSgImportKey p e n = sgPublishKey p e n) ∧
    (∀ p e n, rdsStackSgImportKey p e n = sgPublishKey p e n) ∧
    (∀ p e n, sgPeerImportKey p e n = sgPublishKey p e n) ∧
    registry_key "acme" "dev" "vpc" "main" = "/acme/dev/vpc/main" := by
  refine ⟨?_, ?_, ?_, ?_, ?_, ?_, ?_, ?_, ?_⟩ <;>
    first
      | decide
      | (intro p e n
         simp only [vpcPublishKey, sgPublishKey, registry_key, sgStackVpcImportKey,
           albStackVpcImportKey, rdsStackVpcImportKey, albStackSgImportKey,
           rdsStackSgImportKey, sgPeerImportKey, slash_vpc_slash_eq, slash_sg_slash_eq,
           String.append_assoc])

/-- C4: `get_ssm_subnet_ids base n` declares exactly `n` deferred registry
reads, the `i`-th (for every `i < n`) being the lookup of `base ++ "/" ++ i`,
in increasing index order; it is total, so no failure is raised at declare
time for any count. -/
theorem get_ssm_subnet_ids_spec :
    ∀ (base : String) (n : Nat),
      (get_ssm_subnet_ids base n).length = n ∧
      ∀ i, i < n →
        (get_ssm_subnet_ids base n)[i]? =
          some (get_ssm_parameter (base ++ "/" ++ toString i)) := by
  intro base n
  constructor
  · simp [get_ssm_subnet_ids]
  · intro i hi
    simp only [get_ssm_subnet_ids, List.getElem?_map, List.getElem?_range hi]
    rfl

/-- Witness for C4 at `base = "/acme/dev/main/subnet/public"`, `n = 2`,
`i = 1`. -/
theorem get_ssm_subnet_ids_spec_witness :
    (get_ssm_subnet_ids "/acme/dev/main/subnet/public" 2)[1]? =
      some (get_ssm_parameter "/acme/dev/main/subnet/public/1") :=
  (get_ssm_subnet_ids_spec "/acme/dev/main/subnet/public" 2).2 1 (by decide)

/-- C8: `load_yaml` fails with the not-found error when the path does not
resolve to an existing document, fails with a parse error wrapping the
underlying parse failure when the content is not well-formed, and otherwise
returns the parsed tree verbatim (no defaults injected at this layer). -/
theorem load_yaml_spec {α : Type} (fs : String → Option String)
    (parse : String → Except String α) (path : String) :
    (fs path = none → load_yaml fs parse path = .error (.configNotFound path)) ∧
    (∀ content err, fs path = some content → parse content = .error err →
      load_yaml fs parse path = .error (.configParseError err)) ∧
    (∀ content tree, fs path = some content → parse content = .ok tree →
      load_yaml fs parse path = .ok tree) := by
  refine ⟨fun h => ?_, fun c err hc hp => ?_, fun c tree hc hp => ?_⟩ <;>
    simp [load_yaml, *]

/-- Witness for C8: a one-file filesystem mapping `cfg.yaml` to `k: v`, a
parser accepting exactly that content; the three scenarios evaluated at
concrete inputs. -/
theorem load_yaml_spec_witness :
    load_yaml (fun p => if p = "cfg.yaml" then some "k: v" else none)
        (fun s => if s = "k: v" then .ok 7 else .error "bad") "missing.yaml" =
      .error (.configNotFound "missing.yaml") ∧
    load_yaml (fun p => if p = "cfg.yaml" then some ":::" else none)
        (fun s => if s = "k: v" then .ok 7 else .error "bad") "cfg.yaml" =
      .error (.configParseError "bad") ∧
    load_yaml (fun p => if p = "cfg.yaml" then some "k: v" else none)
        (fun s => if s = "k: v" then .ok 7 else .error "bad") "cfg.yaml" = .ok 7 :=
  ⟨(load_yaml_spec _ _ _).1 (by decide),
   (load_yaml_spec _ _ _).2.1 ":::" "bad" (by decide) (by rfl),
   (load_yaml_spec _ _ _).2.2 "k: v" 7 (by decide) (by rfl)⟩

/-- C2: synthesis is deterministic — every declared logical identifier,
resource name and registry key of the VPC and ALB stacks is a pure function
of the project name, the environment name and the spec names: two
configuration documents agreeing on those (even if they differ in every
other field, e.g. CIDRs) yield byte-identical declared identifier lists, so
in particular re-running an unchanged document reproduces them exactly. -/
theorem declared_identifiers_deterministic :
    ∀ (c₁ c₂ : VpcConfig) (a₁ a₂ : AlbConfig),
      c₁.project_name = c₂.project_name → c₁.env = c₂.env →
      c₁.vpcs.map VpcSpec.name = c₂.vpcs.map VpcSpec.name →
      a₁.project_name = a₂.project_name → a₁.env = a₂.env →
      a₁.albs.map AlbSpec.name = a₂.albs.map AlbSpec.name →
      vpcStackDeclaredIdentifiers c₁ = vpcStackDeclaredIdentifiers c₂ ∧
      albStackDeclaredIdentifiers a₁ = albStackDeclaredIdentifiers a₂ := by
  rintro ⟨p₁, e₁, l₁⟩ ⟨p₂, e₂, l₂⟩ ⟨q₁, f₁, m₁⟩ ⟨q₂, f₂, m₂⟩ hp he hn hq hf hm
  simp only at hp he hn hq hf hm
  subst hp he hq hf
  constructor
  · show l₁.map (vpcDeclaredIdentifiers p₁ e₁) = l₂.map (vpcDeclaredIdentifiers p₁ e₁)
    have h₁ : l₁.map (vpcDeclaredIdentifiers p₁ e₁) =
        (l₁.map VpcSpec.name).map (fun n =>
          ⟨p₁ ++ "-" ++ e₁ ++ "-vpc-" ++ n, p₁ ++ "-" ++ e₁ ++ "-" ++ n ++ "-vpc",
            vpcPublishKey p₁ e₁ n⟩) := by
      rw [List.map_map]; rfl
    have h₂ : l₂.map (vpcDeclaredIdentifiers p₁ e₁) =
        (l₂.map VpcSpec.name).map (fun n =>
          ⟨p₁ ++ "-" ++ e₁ ++ "-vpc-" ++ n, p₁ ++ "-" ++ e₁ ++ "-" ++ n ++ "-vpc",
            vpcPublishKey p₁ e₁ n⟩) := by
      rw [List.map_map]; rfl
    rw [h₁, h₂, hn]
  · show m₁.map (albDeclaredIdentifiers q₁ f₁) = m₂.map (albDeclaredIdentifiers q₁ f₁)
    have h₁ : m₁.map (albDeclaredIdentifiers q₁ f₁) =
        (m₁.map AlbSpec.name).map (fun n =>
          ⟨q₁ ++ "-" ++ f₁ ++ "-" ++ n, q₁ ++ "-" ++ f₁ ++ "-" ++ n,
            albPublishKey q₁ f₁ n⟩) := by
      rw [List.map_map]; rfl
    have h₂ : m₂.map (albDeclaredIdentifiers q₁ f₁) =
        (m₂.map AlbSpec.name).map (fun n =>
          ⟨q₁ ++ "-" ++ f₁ ++ "-" ++ n, q₁ ++ "-" ++ f₁ ++ "-" ++ n,
            albPublishKey q₁ f₁ n⟩) := by
      rw [List.map_map]; rfl
    rw [h₁, h₂, hm]

/-- Witness for C2: two VPC documents with the same project, environment and
spec name but different CIDR blocks and NAT-gateway counts, and two ALB
documents with different domain names, declare identical identifiers. -/
theorem declared_identifiers_deterministic_witness :
    vpcStackDeclaredIdentifiers
        ⟨"acme", "dev", [{ name := "main", cidr := "10.0.0.0/16" }]⟩ =
      vpcStackDeclaredIdentifiers
        ⟨"acme", "dev", [{ name := "main", cidr := "10.9.0.0/16", nat_gateways := some 2 }]⟩ ∧
    albStackDeclaredIdentifiers
        ⟨"acme", "dev", [{ name := "web", vpc := "main", sg := "websg",
                           domain_name := "a.example.com" }]⟩ =
      albStackDeclaredIdentifiers
        ⟨"acme", "dev", [{ name := "web", vpc := "main", sg := "websg",
                           domain_name := "b.example.com" }]⟩ :=
  declared_identifiers_deterministic _ _ _ _ rfl rfl rfl rfl rfl rfl

/-- C5 counterexample: on the target-group spec with `protocol: "SCTP"` the
build does NOT fail with the structured
`UnsupportedEnumValue("protocol", "SCTP", {"HTTP", "HTTPS"})` the claim
requires — the unguarded `getattr` raises a plain `AttributeError` instead. -/
theorem tg_protocol_sctp_not_structured_error :
    resolveTgProtocol (some "SCTP") ≠
      .error (.unsupportedEnumValue "protocol" "SCTP" ["HTTP", "HTTPS"]) := by
  decide

/-- C5 amended: for every target-group protocol string whose uppercasing is
not a member of `elb.ApplicationProtocol` (`HTTP`, `HTTPS`), the build fails
— with an unstructured `AttributeError` carrying only the uppercased value,
not with `UnsupportedEnumValue(field, value, allowed_set)` — and in
particular it never silently substitutes a default enum member. -/
theorem tg_protocol_unknown_fails_with_attribute_error :
    ∀ s : String, pyUpper s ≠ "HTTP" → pyUpper s ≠ "HTTPS" →
      resolveTgProtocol (some s) = .error (.attributeError (pyUpper s)) := by
  intro s h1 h2
  simp [resolveTgProtocol, getattrApplicationProtocol, h1, h2]

/-- Witness for the amended C5 at `protocol = "SCTP"`. -/
theorem tg_protocol_unknown_fails_with_attribute_error_witness :
    resolveTgProtocol (some "SCTP") = .error (.attributeError "SCTP") := by
  have h := tg_protocol_unknown_fails_with_attribute_error "SCTP" (by decide) (by decide)
  have e : pyUpper "SCTP" = "SCTP" := by decide
  rw [e] at h
  exact h

/-- A security-group spec whose single ingress rule has none of the
peer-identifying keys. -/
def sgRulelessIngressConf : SgConf :=
  { name := "web", vpc := "main", ingress := [{}] }

/-- A security-group spec with outbound unrestricted (field absent) and a
non-empty egress list. -/
def sgEgressIgnoredConf : SgConf :=
  { name := "web", vpc := "main",
    egress := [{ cidr := some "0.0.0.0/0", port := some (.int 443) }] }

/-- A stack state whose cache already holds the built group `web`. -/
def sgWebCacheState : SgStackState :=
  { security_groups := [("web", .built "acme-dev-web")], lookups := [] }

/-- C6 counterexample: on a security-group spec whose ingress rule has none
of the peer alternatives, the pass COMPLETES successfully (`.ok`) with that
rule omitted — the `ValueError` from `_resolve_peer` is caught, logged and
the loop continues — contradicting the claim that the build fails and the
pass does not complete with the rule omitted. -/
theorem sg_missing_peer_counterexample :
    (add_rules_to_security_group "acme" "dev" sgRulelessIngressConf sgWebCacheState).isOk
        = true ∧
      add_rules_to_security_group "acme" "dev" sgRulelessIngressConf sgWebCacheState =
        .ok (([], [], [.valueError peerAlternativesMsg]), sgWebCacheState) :=
  ⟨rfl, rfl⟩

/-- C6 amended: for an ingress rule with none of the peer-identifying fields,
`_resolve_peer` does raise a structural `ValueError` naming the missing
alternatives, but `_add_rules_to_security_group` catches it, records the
error, skips the rule and returns normally: the pass completes with the rule
omitted rather than failing. -/
theorem sg_missing_peer_logged_and_skipped :
    ∀ (prj env : String) (rule : RuleConf) (conf : SgConf) (st : SgStackState)
      (sg : SgHandle),
      rule.cidr = none → rule.source_sg = none → rule.prefix_list_id = none →
      rule.connection_peer_id = none → rule.all_ipv4.getD false = false →
      rule.all_ipv6.getD false = false →
      st.security_groups.lookup conf.name = some sg →
      conf.ingress = [rule] → conf.allow_all_outbound.getD true = true →
      resolve_peer prj env rule st = (.error (.valueError peerAlternativesMsg), st) ∧
      add_rules_to_security_group prj env conf st =
        .ok (([], [], [.valueError peerAlternativesMsg]), st) := by
  intro prj env rule conf st sg h1 h2 h3 h4 h5 h6 hlk hing haao
  have hpeer : resolve_peer prj env rule st =
      (.error (.valueError peerAlternativesMsg), st) := by
    simp [resolve_peer, h1, h2, h3, h4, h5, h6]
  refine ⟨hpeer, ?_⟩
  simp [add_rules_to_security_group, hlk, hing, haao, addRulesLoop, hpeer]

/-- Witness for the amended C6 at a concrete empty rule, config and state. -/
theorem sg_missing_peer_logged_and_skipped_witness :
    resolve_peer "acme" "dev" {} sgWebCacheState =
      (.error (.valueError peerAlternativesMsg), sgWebCacheState) ∧
    add_rules_to_security_group "acme" "dev" sgRulelessIngressConf sgWebCacheState =
      .ok (([], [], [.valueError peerAlternativesMsg]), sgWebCacheState) :=
  sg_missing_peer_logged_and_skipped "acme" "dev" {} sgRulelessIngressConf
    sgWebCacheState (.built "acme-dev-web") rfl rfl rfl rfl rfl rfl rfl rfl rfl

/-- C10: when `allow_all_outbound` is `true` or absent, no egress rule from
the spec's egress list is applied — even a non-empty egress list is ignored;
conversely an applied egress rule forces `allow_all_outbound` to be
explicitly `false`. -/
theorem egress_rules_gated_by_allow_all_outbound :
    ∀ (prj env : String) (conf : SgConf) (st : SgStackState)
      (res : (List AppliedRule × List AppliedRule × List PyError) × SgStackState),
      add_rules_to_security_group prj env conf st = .ok res →
      ((conf.allow_all_outbound = none ∨ conf.allow_all_outbound = some true) →
        res.1.2.1 = []) ∧
      (res.1.2.1 ≠ [] → conf.allow_all_outbound = some false) := by
  intro prj env conf st res hres
  unfold add_rules_to_security_group at hres
  cases hlk : st.security_groups.lookup conf.name with
  | none => rw [hlk] at hres; exact absurd hres (by simp)
  | some sg =>
    rw [hlk] at hres
    by_cases hb : conf.allow_all_outbound.getD true = true
    · rw [if_pos hb] at hres
      have hr : res.1.2.1 = [] := by
        cases hres; rfl
      exact ⟨fun _ => hr, fun hne => absurd hr hne⟩
    · rw [if_neg hb] at hres
      have hfalse : conf.allow_all_outbound = some false := by
        cases hopt : conf.allow_all_outbound with
        | none => rw [hopt] at hb; simp at hb
        | some b =>
          cases b with
          | false => rfl
          | true => rw [hopt] at hb; simp at hb
      constructor
      · intro hor
        rcases hor with h | h <;> rw [h] at hfalse <;> simp at hfalse
      · intro _
        exact hfalse

/-- Witness for C10: a spec with `allow_all_outbound` absent and a non-empty
egress list yields an empty applied-egress list. -/
theorem egress_rules_gated_by_allow_all_outbound_witness :
    ((([], [], []), sgWebCacheState) :
        (List AppliedRule × List AppliedRule × List PyError) × SgStackState).1.2.1 =
      ([] : List AppliedRule) :=
  (egress_rules_gated_by_allow_all_outbound "acme" "dev" sgEgressIgnoredConf
    sgWebCacheState (([], [], []), sgWebCacheState) rfl).1 (Or.inl rfl)

/-- C3: resolving the same referenced name twice within one pass is a cache
hit — the second `_get_vpc` (ALB stack) or `_get_security_group` (RDS stack)
call returns the very same imported resource and leaves the state untouched
(no further registry lookup, no second import), while the first call on an
uncached name performs the import exactly once and declares exactly the
expected registry lookups. -/
theorem repeated_resolution_is_single_cache_hit :
    ∀ (prj env vpcKey sgName : String) (azs : List String)
      (st : AlbStackState) (rst : RdsStackState),
      st.vpcs.lookup vpcKey = none →
      rst.security_groups.lookup sgName = none →
      (alb_get_vpc prj env vpcKey azs (alb_get_vpc prj env vpcKey azs st).2 =
          alb_get_vpc prj env vpcKey azs st ∧
        (alb_get_vpc prj env vpcKey azs st).2.imports =
          st.imports ++ [vpcKey ++ "VpcImport"] ∧
        (alb_get_vpc prj env vpcKey azs st).2.lookups =
          st.lookups ++ albStackVpcImportKey prj env vpcKey ::
            (get_ssm_subnet_ids
              ("/" ++ prj ++ "/" ++ env ++ "/" ++ vpcKey ++ "/subnet/public")
              azs.length).map DeferredValue.key) ∧
      (rds_get_security_group prj env sgName
            (rds_get_security_group prj env sgName rst).2 =
          rds_get_security_group prj env sgName rst ∧
        (rds_get_security_group prj env sgName rst).2.imports =
          rst.imports ++ [sgName ++ "SGImport"] ∧
        (rds_get_security_group prj env sgName rst).2.lookups =
          rst.lookups ++ [rdsStackSgImportKey prj env sgName]) := by
  intro prj env vpcKey sgName azs st rst hv hs
  refine ⟨⟨?_, ?_, ?_⟩, ⟨?_, ?_, ?_⟩⟩
  · simp [alb_get_vpc, hv, List.lookup]
  · simp [alb_get_vpc, hv]
  · simp [alb_get_vpc, hv]
  · simp [rds_get_security_group, hs, List.lookup]
  · simp [rds_get_security_group, hs]
  · simp [rds_get_security_group, hs]

/-- Witness for C3 on fresh states, VPC key `main` with two availability
zones, security group `db`. -/
theorem repeated_resolution_is_single_cache_hit_witness :
    alb_get_vpc "acme" "dev" "main" ["a", "b"]
        (alb_get_vpc "acme" "dev" "main" ["a", "b"] emptyAlbState).2 =
      alb_get_vpc "acme" "dev" "main" ["a", "b"] emptyAlbState ∧
    rds_get_security_group "acme" "dev" "db"
        (rds_get_security_group "acme" "dev" "db" emptyRdsState).2 =
      rds_get_security_group "acme" "dev" "db" emptyRdsState :=
  ⟨(repeated_resolution_is_single_cache_hit "acme" "dev" "main" "db" ["a", "b"]
      emptyAlbState emptyRdsState rfl rfl).1.1,
   (repeated_resolution_is_single_cache_hit "acme" "dev" "main" "db" ["a", "b"]
      emptyAlbState emptyRdsState rfl rfl).2.1⟩

/-- C7: an omitted optional field yields the documented default in the
emitted declaration — a security-group spec without `allow_all_outbound` is
declared with `allow_all_outbound = True`, a repository spec without
`image_scan_on_push` with scan-on-push enabled, and one without
`removal_policy` with the `RETAIN` removal policy. -/
theorem omitted_optional_fields_get_documented_defaults :
    ∀ (prj env : String) (sgc : SgConf) (rc : RepoConf),
      sgc.allow_all_outbound = none →
      rc.image_scan_on_push = none →
      rc.removal_policy = none →
      (security_group_props prj env sgc).allowAllOutbound = true ∧
      ∀ props, create_single_repository_props prj env rc = .ok props →
        props.imageScanOnPush = true ∧ props.removalPolicy = .RETAIN := by
  intro prj env sgc rc h1 h2 h3
  constructor
  · simp [security_group_props, h1]
  · intro props hp
    have hrp : getattrRemovalPolicy (pyUpper ((none : Option String).getD "RETAIN")) =
        .ok RemovalPolicy.RETAIN := by decide
    cases hmut : getattrTagMutability (pyUpper (rc.image_tag_mutability.getD "MUTABLE")) with
    | error e =>
      simp only [create_single_repository_props, h2, h3, hmut] at hp
      exact absurd hp (by simp)
    | ok tagMut =>
      cases henc : getattrRepositoryEncryption (pyUpper (rc.encryption.getD "AES_256")) with
      | error e =>
        simp only [create_single_repository_props, h2, h3, hmut, henc] at hp
        exact absurd hp (by simp)
      | ok enc =>
        simp only [create_single_repository_props, h2, h3, hmut, henc, hrp] at hp
        by_cases hk : enc = RepositoryEncryption.KMS ∧ rc.kms_key_arn.getD "" = ""
        · rw [if_pos hk] at hp
          exact absurd hp (by simp)
        · rw [if_neg hk] at hp
          injection hp with h
          subst h
          exact ⟨rfl, rfl⟩

/-- Witness for C7: a security-group spec and a repository spec with every
optional field omitted. -/
theorem omitted_optional_fields_get_documented_defaults_witness :
    (security_group_props "acme" "dev" { name := "web", vpc := "main" }).allowAllOutbound
        = true ∧
      RepoProps.imageScanOnPush
          ⟨"acme-dev-app", true, .MUTABLE, .AES_256, .RETAIN, false⟩ = true ∧
      RepoProps.removalPolicy
          ⟨"acme-dev-app", true, .MUTABLE, .AES_256, .RETAIN, false⟩ = .RETAIN :=
  ⟨(omitted_optional_fields_get_documented_defaults "acme" "dev"
      { name := "web", vpc := "main" } { name := "app" } rfl rfl rfl).1,
   (omitted_optional_fields_get_documented_defaults "acme" "dev"
      { name := "web", vpc := "main" } { name := "app" } rfl rfl rfl).2
     ⟨"acme-dev-app", true, .MUTABLE, .AES_256, .RETAIN, false⟩ (by decide)⟩

/-- C9: a bucket spec with `public_access_block` omitted is declared with all
four block-public-access flags false — `bucket_cfg.get("public_access_block",
{})` hands the empty mapping to `get_block_public_access`, where it is
falsy. -/
theorem omitted_public_access_block_all_false :
    ∀ conf : BucketConf, conf.public_access_block = none →
      bucket_block_public_access conf = ⟨false, false, false, false⟩ := by
  intro conf h
  simp [bucket_block_public_access, get_block_public_access, pyDictTruthy, h]

/-- Witness for C9 at a bucket spec with only a name. -/
theorem omitted_public_access_block_all_false_witness :
    bucket_block_public_access { name := "assets" } = ⟨false, false, false, false⟩ :=
  omitted_public_access_block_all_false { name := "assets" } rfl

end AppCdk
